import Mathlib

/-!
Shallow embedding of the fuel-level-visualizer protocol codec
(`src/visualizer/serial_protocol.py`).

Bytes are modelled as `List Nat` (each element a byte value 0..255 in wire
data; the CRC masks with `&&& 0xFF` exactly as the bit-level algorithm does).
Machine 16-bit integers are `Nat` with explicit bounds (`< 65536`) where the
Python `struct` module would raise on overflow.

The mutable attributes of the Python objects (`self.packet`, `self.data`,
whose fields start out unset) are modelled as records of `Option` fields,
with `none` standing for an attribute never assigned.  `parse_packet`
returns `Except ParseError SerialProtocol`: the `.error` constructors stand
for the exceptions the Python code can raise (`struct.error` from
`struct.unpack` on a too-short buffer, the two explicit `ValueError`s, and
numpy's buffer-size `ValueError` from `np.frombuffer`); on an exception the
partially mutated object state is discarded by the model, which no claim
depends on, since every modelled check precedes the corresponding mutation
or the claims never inspect post-exception state.
-/

namespace FuelViz

/-- `PacketType` enum from the source: QUERY = 0, RESPONSE = 1. -/
inductive PacketType where
  | QUERY
  | RESPONSE
deriving DecidableEq, Repr

/-- The `Command` enum values from the source. -/
def Command.HEADER : Nat := 0xAA55

def Command.QUERY : Nat := 0x1111

def Command.RESPONSE : Nat := 0x2222

/-- `class Packet`: fields start unset (`none`) until assigned. -/
structure Packet where
  length : Option Nat
  byte_array : Option (List Nat)
deriving DecidableEq, Repr

/-- `class Data`: fields start unset (`none`) until assigned.  The numpy
structured array of samples is modelled as a list of
`(TimeStamp, FuelLevel)` pairs. -/
structure Data where
  type : Option PacketType
  n_samples : Option Nat
  samples : Option (List (Nat × Nat))
deriving DecidableEq, Repr

/-- The mutable state of a `SerialProtocol` instance: its `self.packet`
and `self.data` attributes. -/
structure SerialProtocol where
  packet : Packet
  data : Data
deriving DecidableEq, Repr

/-- State of a freshly constructed `SerialProtocol()`: `Packet()` and
`Data()` with no attribute assigned yet. -/
def SerialProtocol.init : SerialProtocol :=
  { packet := { length := none, byte_array := none }
    data := { type := none, n_samples := none, samples := none } }

/-- `struct.pack(">H", n)`: big-endian 16-bit encoding.  The Python call
raises for `n ≥ 65536`; every use below is bounded by `n < 65536`, where
this definition is exact. -/
def packU16 (n : Nat) : List Nat := [n / 256 % 256, n % 256]

/-- `struct.unpack(">H", b)` on a two-byte buffer: big-endian 16-bit read.
Only ever applied (guarded) to two-element lists; other shapes give a
junk value `0`. -/
def be16 : List Nat → Nat
  | [a, b] => a * 256 + b
  | _ => 0

/-- One shift step of the CRC-16 register: shift left; on carry-out of
bit 15, xor the polynomial 0x1021; keep 16 bits. -/
def crcShift (c : Nat) : Nat :=
  if c &&& 0x8000 = 0 then (c <<< 1) &&& 0xFFFF
  else ((c <<< 1) ^^^ 0x1021) &&& 0xFFFF

/-- Fold one byte into the CRC-16 register: xor the byte into the high
half, then run eight shift steps. -/
def crcByte (c b : Nat) : Nat :=
  crcShift (crcShift (crcShift (crcShift (crcShift (crcShift (crcShift (crcShift
    (c ^^^ ((b &&& 0xFF) <<< 8)))))))))

/-- `self.crc_ccitt = crcmod.mkCrcFun(0x11021, initCrc=0xFFFF, xorOut=0x0000,
rev=False)`: CRC-16/CCITT-FALSE, polynomial 0x1021, initial register 0xFFFF,
no reflection, no final xor. -/
def crc16 (bs : List Nat) : Nat := bs.foldl crcByte 0xFFFF

/-- The sample-encoding loop of `build_packet` for RESPONSE packets:
`struct.pack(">HH", sample["TimeStamp"], sample["FuelLevel"])` appended in
sequence order. -/
def encodeSamples : List (Nat × Nat) → List Nat
  | [] => []
  | (t, f) :: rest => packU16 t ++ packU16 f ++ encodeSamples rest

/-- `np.frombuffer(buf, dtype=[("TimeStamp", ">u2"), ("FuelLevel", ">u2")])`
on a buffer whose size is a multiple of 4: consecutive big-endian
`(u16, u16)` records, in buffer order. -/
def parseSamples : List Nat → List (Nat × Nat)
  | a :: b :: c :: d :: rest => (a * 256 + b, c * 256 + d) :: parseSamples rest
  | _ => []

/-- The byte array assembled by the QUERY branch of `build_packet`:
header, command 0x1111, length 2, `n_samples`, then the CRC over the
preceding eight bytes. -/
def encode_query (n_samples : Nat) : List Nat :=
  let pre := packU16 Command.HEADER ++ packU16 Command.QUERY ++
    packU16 2 ++ packU16 n_samples
  pre ++ packU16 (crc16 pre)

/-- The byte array assembled by the RESPONSE branch of `build_packet`:
header, command 0x2222, length `4 * len(samples)`, the encoded samples,
then the CRC over all preceding bytes. -/
def encode_response (samples : List (Nat × Nat)) : List Nat :=
  let pre := packU16 Command.HEADER ++ packU16 Command.RESPONSE ++
    packU16 (samples.length * 4) ++ encodeSamples samples
  pre ++ packU16 (crc16 pre)

/-- `build_packet`: assembles the packet bytes for the requested type and
stores them in `self.packet` (both its `length` and `byte_array` fields are
overwritten); `self.data` is not touched. -/
def build_packet (st : SerialProtocol) (packet_type : PacketType)
    (n_samples : Nat) (samples : List (Nat × Nat)) : SerialProtocol :=
  match packet_type with
  | .QUERY =>
      { st with packet := { length := some 2, byte_array := some (encode_query n_samples) } }
  | .RESPONSE =>
      { st with packet := { length := some (samples.length * 4),
                            byte_array := some (encode_response samples) } }

/-- The exceptions `parse_packet` can raise.  `structError` is
`struct.error` from any `struct.unpack` on a buffer of the wrong size
(the CRC field, the 6-byte prefix, or the query payload);
`crcMismatch` and `invalidHeader` are the two explicit `ValueError`s;
`bufferSizeError` is numpy's `ValueError` when `np.frombuffer` is given a
buffer whose size is not a multiple of the 4-byte record size. -/
inductive ParseError where
  | structError
  | crcMismatch
  | invalidHeader
  | bufferSizeError
deriving DecidableEq, Repr

/-- The command dispatch at the end of `parse_packet`, after the CRC and
header checks: `self.packet` has just been replaced by a fresh `Packet()`
whose `length` is set.  `body` is `payload[6:]`.  Note the source has no
`else` branch: an unrecognized command falls through and `self.data` is
returned unchanged. -/
def parseDispatch (st : SerialProtocol) (command length : Nat)
    (body : List Nat) : Except ParseError SerialProtocol :=
  let pk : Packet := { length := some length, byte_array := none }
  if command = Command.QUERY then
    if body.length < 2 then .error .structError
    else
      let d : Data :=
        { st.data with
          type := some PacketType.QUERY
          n_samples := some (be16 (body.take 2)) }
      .ok { packet := pk, data := d }
  else if command = Command.RESPONSE then
    let samples_section := body.take length
    if samples_section.length % 4 ≠ 0 then .error .bufferSizeError
    else
      let d : Data :=
        { type := some PacketType.RESPONSE
          n_samples := some (length / 4)
          samples := some (parseSamples samples_section) }
      .ok { packet := pk, data := d }
  else .ok { st with packet := pk }

/-- `parse_packet(data_bytes)`: split off the trailing 2-byte CRC, verify
it over everything before it, unpack header / command / length from the
first six payload bytes, check the header magic, then dispatch on the
command.  There is no input-length check: a buffer too short for one of
the `struct.unpack` calls raises `struct.error` at that call. -/
def parse_packet (st : SerialProtocol) (data_bytes : List Nat) :
    Except ParseError SerialProtocol :=
  if data_bytes.length < 2 then .error .structError
  else
    let payload := data_bytes.take (data_bytes.length - 2)
    let crc_recv := be16 (data_bytes.drop (data_bytes.length - 2))
    if crc_recv ≠ crc16 payload then .error .crcMismatch
    else if payload.length < 6 then .error .structError
    else
      let header := be16 (payload.take 2)
      let command := be16 ((payload.drop 2).take 2)
      let length := be16 ((payload.drop 4).take 2)
      if header ≠ Command.HEADER then .error .invalidHeader
      else parseDispatch st command length (payload.drop 6)

/-! ### Arithmetic and list helper lemmas -/

lemma crcShift_le (c : Nat) : crcShift c ≤ 0xFFFF := by
  unfold crcShift
  split <;> exact Nat.and_le_right

lemma crcByte_lt (c b : Nat) : crcByte c b < 65536 := by
  unfold crcByte
  exact Nat.lt_succ_of_le (crcShift_le _)

lemma foldl_crcByte_lt (bs : List Nat) (c : Nat) (h : c < 65536) :
    bs.foldl crcByte c < 65536 := by
  induction bs generalizing c with
  | nil => exact h
  | cons b bs ih => exact ih _ (crcByte_lt _ _)

lemma crc16_lt (bs : List Nat) : crc16 bs < 65536 :=
  foldl_crcByte_lt bs 0xFFFF (by norm_num)

lemma be16_packU16 (n : Nat) (h : n < 65536) : be16 (packU16 n) = n := by
  have h256 : n / 256 < 256 := Nat.div_lt_of_lt_mul (by omega)
  simp only [packU16, be16, Nat.mod_eq_of_lt h256]
  omega

lemma take_len_append (l m : List Nat) : (l ++ m).take l.length = l := by
  induction l with
  | nil => simp
  | cons a l ih => simp [ih]

lemma drop_len_append (l m : List Nat) : (l ++ m).drop l.length = m := by
  induction l with
  | nil => simp
  | cons a l ih => simp [ih]

lemma encodeSamples_length (s : List (Nat × Nat)) :
    (encodeSamples s).length = 4 * s.length := by
  induction s with
  | nil => rfl
  | cons p s ih =>
      obtain ⟨t, f⟩ := p
      simp [encodeSamples, packU16, ih]
      omega

lemma parseSamples_encodeSamples (s : List (Nat × Nat))
    (h : ∀ p ∈ s, p.1 < 65536 ∧ p.2 < 65536) :
    parseSamples (encodeSamples s) = s := by
  induction s with
  | nil => rfl
  | cons p s ih =>
      obtain ⟨t, f⟩ := p
      obtain ⟨⟨ht, hf⟩, hrest⟩ := List.forall_mem_cons.mp h
      have htd : t / 256 < 256 := Nat.div_lt_of_lt_mul (by omega)
      have hfd : f / 256 < 256 := Nat.div_lt_of_lt_mul (by omega)
      show parseSamples
        (t / 256 % 256 :: t % 256 :: f / 256 % 256 :: f % 256 :: encodeSamples s)
        = (t, f) :: s
      rw [parseSamples, ih hrest, Nat.mod_eq_of_lt htd, Nat.mod_eq_of_lt hfd]
      have : t / 256 * 256 + t % 256 = t := by omega
      have : f / 256 * 256 + f % 256 = f := by omega
      simp_all

/-- Framing lemma: on input of the shape
`(b0 :: b1 :: b2 :: b3 :: b4 :: b5 :: rest) ++ <CRC over that prefix>`,
`parse_packet` passes the CRC check, reads `b0 b1` as the header,
`b2 b3` as the command and `b4 b5` as the length, and dispatches. -/
lemma parse_packet_frame (st : SerialProtocol) (b0 b1 b2 b3 b4 b5 : Nat)
    (rest : List Nat) :
    parse_packet st ((b0 :: b1 :: b2 :: b3 :: b4 :: b5 :: rest) ++
        packU16 (crc16 (b0 :: b1 :: b2 :: b3 :: b4 :: b5 :: rest))) =
      if b0 * 256 + b1 ≠ Command.HEADER then .error .invalidHeader
      else parseDispatch st (b2 * 256 + b3) (b4 * 256 + b5) rest := by
  set pre := b0 :: b1 :: b2 :: b3 :: b4 :: b5 :: rest with hpre
  have hlen : (pre ++ packU16 (crc16 pre)).length = pre.length + 2 := by
    simp [packU16]
  have hsub : (pre ++ packU16 (crc16 pre)).length - 2 = pre.length := by omega
  unfold parse_packet
  rw [if_neg (by omega), hsub, take_len_append, drop_len_append,
    be16_packU16 _ (crc16_lt pre), if_neg (by simp)]
  have hplen : pre.length = rest.length + 6 := by simp [hpre]
  rw [if_neg (by omega)]
  have htake : pre.take 2 = [b0, b1] := rfl
  have hd2 : (pre.drop 2).take 2 = [b2, b3] := rfl
  have hd4 : (pre.drop 4).take 2 = [b4, b5] := rfl
  have hd6 : pre.drop 6 = rest := rfl
  rw [htake, hd2, hd4, hd6]
  show (if be16 [b0, b1] ≠ Command.HEADER then Except.error ParseError.invalidHeader
    else parseDispatch st (be16 [b2, b3]) (be16 [b4, b5]) rest) = _
  rfl

lemma split16 (n : Nat) (h : n < 65536) : n / 256 % 256 * 256 + n % 256 = n := by
  have h256 : n / 256 < 256 := Nat.div_lt_of_lt_mul (by omega)
  rw [Nat.mod_eq_of_lt h256]
  omega

/-- Framing lemma in packed form: a packet assembled as
`header ++ command ++ length ++ body ++ CRC` with in-range fields parses
to the dispatch on those fields. -/
lemma parse_packet_framed (st : SerialProtocol) (c L : Nat)
    (hc : c < 65536) (hL : L < 65536) (rest : List Nat) :
    parse_packet st ((packU16 Command.HEADER ++ packU16 c ++ packU16 L ++ rest) ++
        packU16 (crc16 (packU16 Command.HEADER ++ packU16 c ++ packU16 L ++ rest))) =
      parseDispatch st c L rest := by
  have h1 : packU16 Command.HEADER ++ packU16 c ++ packU16 L ++ rest =
      0xAA :: 0x55 :: (c / 256 % 256) :: (c % 256) :: (L / 256 % 256) ::
        (L % 256) :: rest := by
    simp [packU16, Command.HEADER]
  rw [h1, parse_packet_frame, if_neg (by norm_num [Command.HEADER]),
    split16 c hc, split16 L hL]

/-! ### Claim theorems -/

/-- Claim C2: for every n with 0 ≤ n ≤ 65535, decoding the bytes produced
by `encode_query n` succeeds and yields a Query message whose `n_samples`
field equals `n` (the decoder state afterwards carries a fresh packet
record with length 2 and `data.type = QUERY`, `data.n_samples = n`). -/
theorem C2_query_roundtrip (st : SerialProtocol) (n : Nat) (h : n ≤ 65535) :
    parse_packet st (encode_query n) =
      .ok ⟨{ length := some 2, byte_array := none },
           { st.data with type := some PacketType.QUERY, n_samples := some n }⟩ := by
  unfold encode_query
  rw [parse_packet_framed st Command.QUERY 2 (by norm_num [Command.QUERY])
    (by norm_num) (packU16 n)]
  unfold parseDispatch
  rw [if_pos rfl, if_neg (by simp [packU16])]
  have htake : (packU16 n).take 2 = packU16 n := rfl
  rw [htake, be16_packU16 n (by omega)]

/-- Witness for C2 at n = 60: the decoded `n_samples` is 60. -/
theorem C2_query_roundtrip_witness :
    parse_packet SerialProtocol.init (encode_query 60) =
      .ok ⟨{ length := some 2, byte_array := none },
           { SerialProtocol.init.data with
             type := some PacketType.QUERY, n_samples := some 60 }⟩ :=
  C2_query_roundtrip SerialProtocol.init 60 (by norm_num)

/-- Claim C1: for every sequence S of at most 16383 samples, each a pair of
16-bit values, decoding the bytes produced by `encode_response S` succeeds
and yields a Response whose sample sequence equals S, order and values
preserved (and `n_samples = |S|`). -/
theorem C1_response_roundtrip (st : SerialProtocol) (S : List (Nat × Nat))
    (hlen : S.length ≤ 16383)
    (hvals : ∀ p ∈ S, p.1 < 65536 ∧ p.2 < 65536) :
    parse_packet st (encode_response S) =
      .ok ⟨{ length := some (S.length * 4), byte_array := none },
           { type := some PacketType.RESPONSE, n_samples := some S.length,
             samples := some S }⟩ := by
  unfold encode_response
  rw [parse_packet_framed st Command.RESPONSE (S.length * 4)
    (by norm_num [Command.RESPONSE]) (by omega) (encodeSamples S)]
  unfold parseDispatch
  rw [if_neg (by norm_num [Command.QUERY, Command.RESPONSE]), if_pos rfl]
  have hsec : (encodeSamples S).take (S.length * 4) = encodeSamples S := by
    apply List.take_of_length_le
    rw [encodeSamples_length]
    omega
  rw [hsec]
  rw [if_neg (by rw [encodeSamples_length]; omega)]
  rw [parseSamples_encodeSamples S hvals]
  have hdiv : S.length * 4 / 4 = S.length := by omega
  rw [hdiv]

/-- Witness for C1 at S = [(100, 16384), (7, 8)]. -/
theorem C1_response_roundtrip_witness :
    parse_packet SerialProtocol.init (encode_response [(100, 16384), (7, 8)]) =
      .ok ⟨{ length := some 8, byte_array := none },
           { type := some PacketType.RESPONSE, n_samples := some 2,
             samples := some [(100, 16384), (7, 8)] }⟩ :=
  C1_response_roundtrip SerialProtocol.init [(100, 16384), (7, 8)]
    (by norm_num) (by decide)

/-- Claim C3: whenever the CRC recomputed over all bytes but the last two
differs from the big-endian value held in the last two bytes (which exist,
i.e. the input has at least 2 bytes), `parse_packet` fails with the CRC
mismatch error.  In the source this comparison precedes the
`struct.unpack` of header, command and length and the command dispatch, so
no field of the packet is parsed or returned: the result is the bare
error. -/
theorem C3_crc_mismatch_rejects (st : SerialProtocol) (bs : List Nat)
    (hlen : 2 ≤ bs.length)
    (hcrc : be16 (bs.drop (bs.length - 2)) ≠ crc16 (bs.take (bs.length - 2))) :
    parse_packet st bs = .error .crcMismatch := by
  unfold parse_packet
  rw [if_neg (by omega), if_pos hcrc]

/-- Witness for C3 at the input `[0, 0, 0, 0]`, whose stored CRC 0 differs
from the CRC of `[0, 0]`. -/
theorem C3_crc_mismatch_rejects_witness :
    parse_packet SerialProtocol.init [0, 0, 0, 0] = .error .crcMismatch :=
  C3_crc_mismatch_rejects SerialProtocol.init [0, 0, 0, 0] (by norm_num)
    (by decide)

set_option maxRecDepth 8192 in
/-- Counterexample to claim C4: a packet with valid CRC, valid header and
the unrecognized command 0x3333 does NOT fail with an UnknownCommand
error: `parse_packet` has no `else` branch on the command dispatch, so it
returns successfully, with the decoded-data state left exactly as it was
(here: the fresh, never-assigned `Data()` of a new `SerialProtocol`). -/
theorem C4_counterexample :
    parse_packet SerialProtocol.init
      ([0xAA, 0x55, 0x33, 0x33, 0x00, 0x00] ++
        packU16 (crc16 [0xAA, 0x55, 0x33, 0x33, 0x00, 0x00])) =
      .ok ⟨{ length := some 0, byte_array := none }, SerialProtocol.init.data⟩ := by
  rfl

/-- Claim C4 amended: for every input that passes the CRC and header
checks but whose Command field is neither 0x1111 nor 0x2222, decode does
not raise any error: it falls through the command dispatch and returns
with the stored decoded-data state unchanged (so it never returns a
message decoded from this packet, but it also never reports
UnknownCommand). -/
theorem C4_unknown_command_silently_ok (st : SerialProtocol) (c L : Nat)
    (rest : List Nat) (hc : c < 65536) (hL : L < 65536)
    (hq : c ≠ Command.QUERY) (hr : c ≠ Command.RESPONSE) :
    parse_packet st ((packU16 Command.HEADER ++ packU16 c ++ packU16 L ++ rest) ++
        packU16 (crc16 (packU16 Command.HEADER ++ packU16 c ++ packU16 L ++ rest))) =
      .ok { st with packet := { length := some L, byte_array := none } } := by
  rw [parse_packet_framed st c L hc hL rest]
  unfold parseDispatch
  rw [if_neg hq, if_neg hr]

/-- Witness for amended C4 at command 0x3333, length 0, empty body. -/
theorem C4_unknown_command_silently_ok_witness :
    parse_packet SerialProtocol.init
      ((packU16 Command.HEADER ++ packU16 0x3333 ++ packU16 0 ++ []) ++
        packU16 (crc16 (packU16 Command.HEADER ++ packU16 0x3333 ++ packU16 0 ++ []))) =
      .ok { SerialProtocol.init with
            packet := { length := some 0, byte_array := none } } :=
  C4_unknown_command_silently_ok SerialProtocol.init 0x3333 0 []
    (by norm_num) (by norm_num) (by decide) (by decide)

set_option maxRecDepth 8192 in
/-- Counterexample to claim C5: not every Response packet (valid CRC,
valid header, command 0x2222) with a Length field that is not a multiple
of 4 fails.  With Length = 5 but only 4 actual payload bytes, the slice
`payload[6:6+5]` silently clamps to the 4 available bytes, 4 is a
multiple of the record size, and decode returns successfully with
`n_samples = 5 // 4 = 1` and one sample — the Length field itself is
never checked, only the clamped slice. -/
theorem C5_counterexample :
    parse_packet SerialProtocol.init
      ([0xAA, 0x55, 0x22, 0x22, 0x00, 0x05, 0, 1, 0, 2] ++
        packU16 (crc16 [0xAA, 0x55, 0x22, 0x22, 0x00, 0x05, 0, 1, 0, 2])) =
      .ok ⟨{ length := some 5, byte_array := none },
           { type := some PacketType.RESPONSE, n_samples := some 1,
             samples := some [(1, 2)] }⟩ := by
  rfl

/-- Claim C5 amended: a Response packet (valid CRC, valid header, command
0x2222) whose Length field `L` is not a multiple of 4 fails — with the
buffer-size error numpy raises inside the decoder, the failure mode the
spec names MisalignedLength — provided the payload actually carries at
least `L` bytes, so that the clamped slice has the misaligned size `L`;
in particular a Response packet with Length = 5 carrying its five payload
bytes fails (the witness).  A packet supplying fewer than `L` payload
bytes escapes this check (see the C5 counterexample and C7). -/
theorem C5_misaligned_length_fails (st : SerialProtocol) (L : Nat)
    (pl : List Nat) (hpl : L ≤ pl.length) (hmod : L % 4 ≠ 0) (hL : L < 65536) :
    parse_packet st ((packU16 Command.HEADER ++ packU16 Command.RESPONSE ++
        packU16 L ++ pl) ++
        packU16 (crc16 (packU16 Command.HEADER ++ packU16 Command.RESPONSE ++
          packU16 L ++ pl))) =
      .error .bufferSizeError := by
  rw [parse_packet_framed st Command.RESPONSE L
    (by norm_num [Command.RESPONSE]) hL pl]
  unfold parseDispatch
  rw [if_neg (by norm_num [Command.QUERY, Command.RESPONSE]), if_pos rfl]
  have hsec : (pl.take L).length % 4 ≠ 0 := by
    rw [List.length_take]
    omega
  rw [if_pos hsec]

/-- Witness for C5: a Response packet with Length = 5 and five payload
bytes fails with the buffer-size (misaligned length) error. -/
theorem C5_misaligned_length_fails_witness :
    parse_packet SerialProtocol.init
      ((packU16 Command.HEADER ++ packU16 Command.RESPONSE ++
        packU16 5 ++ [1, 2, 3, 4, 5]) ++
        packU16 (crc16 (packU16 Command.HEADER ++ packU16 Command.RESPONSE ++
          packU16 5 ++ [1, 2, 3, 4, 5]))) =
      .error .bufferSizeError :=
  C5_misaligned_length_fails SerialProtocol.init 5 [1, 2, 3, 4, 5]
    (by norm_num) (by norm_num) (by norm_num)

/-- Counterexample to claim C6: inputs shorter than 8 bytes do not fail
with a single dedicated FrameTooShort error — the source has no input
length check at all.  Two concrete inputs of fewer than 8 bytes produce
two different errors: `[0, 0]` fails the CRC comparison, while
`[0xFF, 0xFF]` passes it (the CRC of the empty payload is the initial
register 0xFFFF) and then dies in `struct.unpack` on the 5-or-fewer-byte
prefix. -/
theorem C6_counterexample :
    parse_packet SerialProtocol.init [0, 0] = .error .crcMismatch ∧
    parse_packet SerialProtocol.init [0xFF, 0xFF] = .error .structError := by
  exact ⟨rfl, rfl⟩

/-- Claim C6 amended: every input of fewer than 8 bytes still fails to
decode, but with `struct.error` from an unpack on a too-short buffer or
with the CRC mismatch error, depending on content, not with a dedicated
FrameTooShort error. -/
theorem C6_short_input_always_fails (st : SerialProtocol) (bs : List Nat)
    (h : bs.length < 8) :
    parse_packet st bs = .error .structError ∨
    parse_packet st bs = .error .crcMismatch := by
  unfold parse_packet
  by_cases h2 : bs.length < 2
  · rw [if_pos h2]
    exact Or.inl rfl
  · rw [if_neg h2]
    by_cases hcrc :
        be16 (bs.drop (bs.length - 2)) ≠ crc16 (bs.take (bs.length - 2))
    · rw [if_pos hcrc]
      exact Or.inr rfl
    · rw [if_neg hcrc]
      have hlt : (bs.take (bs.length - 2)).length < 6 := by
        rw [List.length_take]
        omega
      rw [if_pos hlt]
      exact Or.inl rfl

/-- Witness for amended C6 at the empty input. -/
theorem C6_short_input_always_fails_witness :
    parse_packet SerialProtocol.init [] = .error .structError ∨
    parse_packet SerialProtocol.init [] = .error .crcMismatch :=
  C6_short_input_always_fails SerialProtocol.init [] (by norm_num)

set_option maxRecDepth 8192 in
/-- Counterexample to claim C7: a Response packet declaring Length = 8
(two samples) but carrying only 4 payload bytes does NOT fail with a
TruncatedResponsePayload error.  The slice `payload[6:6+length]` silently
clamps to the 4 available bytes, `np.frombuffer` accepts them (4 is a
multiple of the record size), and decode returns successfully with
`n_samples = 2` but only one sample. -/
theorem C7_counterexample :
    parse_packet SerialProtocol.init
      ([0xAA, 0x55, 0x22, 0x22, 0x00, 0x08, 0, 1, 0, 2] ++
        packU16 (crc16 [0xAA, 0x55, 0x22, 0x22, 0x00, 0x08, 0, 1, 0, 2])) =
      .ok ⟨{ length := some 8, byte_array := none },
           { type := some PacketType.RESPONSE, n_samples := some 2,
             samples := some [(1, 2)] }⟩ := by
  rfl

/-- Claim C7 amended: a Response packet whose declared Length exceeds the
available payload does not fail with a truncation error.  When the number
of available payload bytes is a multiple of 4, decode succeeds: it reads
only the bytes actually present, returning `n_samples = Length / 4`
together with the (fewer) samples parsed from the available bytes.  (When
the available count is not a multiple of 4, the failure is the numpy
buffer-size error, not a truncation error.) -/
theorem C7_truncated_response_succeeds (st : SerialProtocol) (L : Nat)
    (pl : List Nat) (hshort : pl.length < L) (hmod : pl.length % 4 = 0)
    (hL : L < 65536) :
    parse_packet st ((packU16 Command.HEADER ++ packU16 Command.RESPONSE ++
        packU16 L ++ pl) ++
        packU16 (crc16 (packU16 Command.HEADER ++ packU16 Command.RESPONSE ++
          packU16 L ++ pl))) =
      .ok ⟨{ length := some L, byte_array := none },
           { type := some PacketType.RESPONSE, n_samples := some (L / 4),
             samples := some (parseSamples pl) }⟩ := by
  rw [parse_packet_framed st Command.RESPONSE L
    (by norm_num [Command.RESPONSE]) hL pl]
  unfold parseDispatch
  rw [if_neg (by norm_num [Command.QUERY, Command.RESPONSE]), if_pos rfl]
  have hsec : pl.take L = pl := List.take_of_length_le (Nat.le_of_lt hshort)
  rw [hsec, if_neg (by omega)]

/-- Witness for amended C7 at Length = 8 with payload `[0, 1, 0, 2]`:
decode succeeds with `n_samples = 2` and a single parsed sample. -/
theorem C7_truncated_response_succeeds_witness :
    parse_packet SerialProtocol.init
      ((packU16 Command.HEADER ++ packU16 Command.RESPONSE ++
        packU16 8 ++ [0, 1, 0, 2]) ++
        packU16 (crc16 (packU16 Command.HEADER ++ packU16 Command.RESPONSE ++
          packU16 8 ++ [0, 1, 0, 2]))) =
      .ok ⟨{ length := some 8, byte_array := none },
           { type := some PacketType.RESPONSE, n_samples := some 2,
             samples := some (parseSamples [0, 1, 0, 2]) }⟩ :=
  C7_truncated_response_succeeds SerialProtocol.init 8 [0, 1, 0, 2]
    (by norm_num) (by norm_num) (by norm_num)

set_option maxRecDepth 16384 in
/-- Claim C8: `encode_query 60` produces exactly
`AA 55 11 11 00 02 00 3C` followed by the two CRC bytes, the CRC being
CRC-16/CCITT-FALSE (polynomial 0x1021, initial register 0xFFFF, no
reflection, xor-out 0) of those eight bytes; its concrete value is
0xDD0B, so the full packet is `AA 55 11 11 00 02 00 3C DD 0B`. -/
theorem C8_encode_query_60 :
    encode_query 60 = [0xAA, 0x55, 0x11, 0x11, 0x00, 0x02, 0x00, 0x3C] ++
        packU16 (crc16 [0xAA, 0x55, 0x11, 0x11, 0x00, 0x02, 0x00, 0x3C]) ∧
    crc16 [0xAA, 0x55, 0x11, 0x11, 0x00, 0x02, 0x00, 0x3C] = 0xDD0B ∧
    encode_query 60 =
      [0xAA, 0x55, 0x11, 0x11, 0x00, 0x02, 0x00, 0x3C, 0xDD, 0x0B] := by
  exact ⟨rfl, rfl, rfl⟩

set_option maxRecDepth 16384 in
/-- Corroboration that `crc16` is CRC-16/CCITT-FALSE: its value on the
standard nine-byte test vector "123456789" is the published check value
0x29B1 of that variant (distinguishing it from XModem, Kermit, Genibus and
the other 0x1021-polynomial variants). -/
lemma crc16_check_value :
    crc16 [0x31, 0x32, 0x33, 0x34, 0x35, 0x36, 0x37, 0x38, 0x39] = 0x29B1 := by
  rfl

/-- Counterexample to claim C9: building a query packet does not leave the
stored packet state unchanged — `build_packet` overwrites `self.packet`
with the newly assembled packet.  Starting from a state whose stored
packet is `{length := some 99, byte_array := some [1, 2, 3]}`, the stored
packet after `build_packet QUERY 60` differs from it. -/
theorem C9_counterexample :
    (build_packet ⟨{ length := some 99, byte_array := some [1, 2, 3] },
        { type := none, n_samples := none, samples := none }⟩
      PacketType.QUERY 60 []).packet ≠
      ({ length := some 99, byte_array := some [1, 2, 3] } : Packet) := by
  decide

/-- Claim C9 amended: `encode_query` is deterministic — the bytes stored
by `build_packet QUERY n` depend only on `n` (they equal
`encode_query n` whatever the prior state, so two calls with the same `n`
store the same bytes) — and the call leaves the decoded-data state
`self.data` unchanged; but it does NOT leave the stored packet unchanged:
`self.packet` is overwritten with the newly built packet. -/
theorem C9_encode_query_deterministic (st st' : SerialProtocol) (n : Nat) :
    (build_packet st PacketType.QUERY n []).packet.byte_array =
        some (encode_query n) ∧
    (build_packet st PacketType.QUERY n []).data = st.data ∧
    (build_packet st PacketType.QUERY n []).packet =
      (build_packet st' PacketType.QUERY n []).packet := by
  exact ⟨rfl, rfl, rfl⟩

/-- Claim C10 (implicit): a Response packet with extra bytes between
offset `6 + Length` and the trailing CRC (the CRC computed over everything
before it, extras included) decodes successfully, silently ignoring the
extras: only the first `Length` payload bytes are interpreted, yielding
exactly `Length / 4` samples. -/
theorem C10_extra_bytes_ignored (st : SerialProtocol) (L : Nat)
    (pl extra : List Nat) (hpl : pl.length = L) (hmod : L % 4 = 0)
    (hL : L < 65536) :
    parse_packet st ((packU16 Command.HEADER ++ packU16 Command.RESPONSE ++
        packU16 L ++ (pl ++ extra)) ++
        packU16 (crc16 (packU16 Command.HEADER ++ packU16 Command.RESPONSE ++
          packU16 L ++ (pl ++ extra)))) =
      .ok ⟨{ length := some L, byte_array := none },
           { type := some PacketType.RESPONSE, n_samples := some (L / 4),
             samples := some (parseSamples pl) }⟩ := by
  rw [parse_packet_framed st Command.RESPONSE L
    (by norm_num [Command.RESPONSE]) hL (pl ++ extra)]
  unfold parseDispatch
  rw [if_neg (by norm_num [Command.QUERY, Command.RESPONSE]), if_pos rfl]
  have hsec : (pl ++ extra).take L = pl := by
    rw [← hpl]
    exact take_len_append pl extra
  rw [hsec, if_neg (by omega)]

/-- Witness for C10 at Length = 4 with payload `[0, 100, 64, 0]` and two
extra bytes `[9, 9]`: decode succeeds with exactly one sample, the extras
ignored. -/
theorem C10_extra_bytes_ignored_witness :
    parse_packet SerialProtocol.init
      ((packU16 Command.HEADER ++ packU16 Command.RESPONSE ++
        packU16 4 ++ ([0, 100, 64, 0] ++ [9, 9])) ++
        packU16 (crc16 (packU16 Command.HEADER ++ packU16 Command.RESPONSE ++
          packU16 4 ++ ([0, 100, 64, 0] ++ [9, 9])))) =
      .ok ⟨{ length := some 4, byte_array := none },
           { type := some PacketType.RESPONSE, n_samples := some 1,
             samples := some (parseSamples [0, 100, 64, 0]) }⟩ :=
  C10_extra_bytes_ignored SerialProtocol.init 4 [0, 100, 64, 0] [9, 9]
    (by norm_num) (by norm_num) (by norm_num)

end FuelViz
